import Mathlib

/-!
Verification of the theater-troupe data-access layer
(`src/database/connection.py`, `src/utils/validators.py`).

The development shallowly embeds:
* the Table Registry (`DatabaseManager.TABLE_CONFIG`) and the query
  composer (`_get_table_config`, `_resolve_sort_column`,
  `_build_base_query`, `_select_all`, `_search_records`);
* the retry loop of `execute_query`;
* the three Relationship Replacers (`set_production_cast`,
  `set_rehearsal_actors`, `set_play_authors`) together with their read
  operations, over an explicit relational state with the store's
  primary-key / foreign-key checks;
* the local validators and the single-row add/update operations built
  on them;
* the statistics helpers that swallow store errors.

Python strings are modelled over `List Char` because the corresponding
`String` library functions do not reduce in the kernel.
-/

/-! ### Character/string helpers (models of Python str operations) -/

/-- Python whitespace as used by `str.strip()` (the characters that occur
in practice). -/
def isSpaceChar (c : Char) : Bool :=
  c == ' ' || c == '\t' || c == '\n' || c == '\r' || c == '\x0b' || c == '\x0c'

/-- Strip leading and trailing whitespace from a character list. -/
def stripList (l : List Char) : List Char :=
  ((l.dropWhile isSpaceChar).reverse.dropWhile isSpaceChar).reverse

/-- Model of Python `str.strip()`. -/
def pyStrip (s : String) : String := ⟨stripList s.data⟩

/-- ASCII lower-casing of one character (models the case folding used by a
case-insensitive collation on the ASCII range). -/
def lowerChar (c : Char) : Char :=
  if 'A' ≤ c && c ≤ 'Z' then Char.ofNat (c.toNat + 32) else c

/-- Does `b` start with `a`, comparing characters case-insensitively? -/
def leadMatchCI : List Char → List Char → Bool
  | [], _ => true
  | _ :: _, [] => false
  | a :: as, b :: bs => (lowerChar a == lowerChar b) && leadMatchCI as bs

/-- Does the list contain `sub` as a contiguous, case-insensitive
sub-sequence — literal containment, every character of `sub` taken
verbatim?  This is not the store's `LIKE` semantics when `sub` holds a
metacharacter; that is `likeMatch` below. -/
def hasSubCI (sub : List Char) : List Char → Bool
  | [] => sub.isEmpty
  | c :: rest => leadMatchCI sub (c :: rest) || hasSubCI sub rest

/-- MySQL `LIKE` matching under a case-insensitive collation, with the
unescaped metacharacters of the pattern kept special: `%` matches any
sequence, `_` any single character, and `\` escapes the next pattern
character to a literal (a trailing lone `\` matches nothing).  `fuel`
bounds the recursion: every step consumes a pattern or a subject
character, so any fuel above their combined length is enough and the
out-of-fuel `false` is never reached from `likeMatch`. -/
def likeMatchF : Nat → List Char → List Char → Bool
  | 0, _, _ => false
  | fuel + 1, p, s =>
    match p with
    | [] => s.isEmpty
    | c :: p1 =>
      if c = '%' then
        likeMatchF fuel p1 s ||
          (match s with
           | [] => false
           | _ :: s1 => likeMatchF fuel (c :: p1) s1)
      else if c = '_' then
        match s with
        | [] => false
        | _ :: s1 => likeMatchF fuel p1 s1
      else if c = '\\' then
        match p1 with
        | [] => false
        | e :: p2 =>
          match s with
          | [] => false
          | d :: s1 => (lowerChar e == lowerChar d) && likeMatchF fuel p2 s1
      else
        match s with
        | [] => false
        | d :: s1 => (lowerChar c == lowerChar d) && likeMatchF fuel p1 s1

/-- `subject LIKE pattern` with adequate fuel. -/
def likeMatch (pattern s : List Char) : Bool :=
  likeMatchF (pattern.length + s.length + 1) pattern s

/-- Does `b` start with `a` (case-sensitive)? -/
def leadMatchCS : List Char → List Char → Bool
  | [], _ => true
  | _ :: _, [] => false
  | a :: as, b :: bs => (a == b) && leadMatchCS as bs

/-- Case-sensitive contiguous containment; models Python `sub in s`. -/
def hasSubCS (sub : List Char) : List Char → Bool
  | [] => sub.isEmpty
  | c :: rest => leadMatchCS sub (c :: rest) || hasSubCS sub rest

/-! ### Table Registry (`DatabaseManager.TABLE_CONFIG`) -/

/-- One entry of `TABLE_CONFIG`.  `frm` is the `'from'` key of the Python
dict (`from` is a Lean keyword). -/
structure TableConfig where
  frm : String
  select : String
  joins : Option String
  orderable : List (String × String)
  default_sort : String
  searchable : List String
deriving DecidableEq, Repr

def actorsConfig : TableConfig :=
  { frm := "actor a", select := "a.*", joins := none,
    orderable := [("id", "a.id"), ("full_name", "a.full_name"), ("experience", "a.experience")],
    default_sort := "id",
    searchable := ["a.full_name", "a.experience"] }

def authorsConfig : TableConfig :=
  { frm := "author a", select := "a.*", joins := none,
    orderable := [("id", "a.id"), ("full_name", "a.full_name"), ("biography", "a.biography")],
    default_sort := "id",
    searchable := ["a.full_name", "a.biography"] }

def directorsConfig : TableConfig :=
  { frm := "director d", select := "d.*", joins := none,
    orderable := [("id", "d.id"), ("full_name", "d.full_name"), ("biography", "d.biography")],
    default_sort := "id",
    searchable := ["d.full_name", "d.biography"] }

def playsConfig : TableConfig :=
  { frm := "play p", select := "p.*", joins := none,
    orderable := [("id", "p.id"), ("title", "p.title"), ("genre", "p.genre"),
                  ("year_written", "p.year_written"), ("description", "p.description")],
    default_sort := "id",
    searchable := ["p.title", "p.genre", "p.description"] }

def productionsConfig : TableConfig :=
  { frm := "production p", select := "p.*", joins := none,
    orderable := [("id", "p.id"), ("title", "p.title"),
                  ("production_date", "p.production_date"), ("description", "p.description")],
    default_sort := "id",
    searchable := ["p.title", "p.description"] }

def performancesConfig : TableConfig :=
  { frm := "performance p",
    select := "p.*, t.name AS theatre_name, l.hall_name, pr.title AS production_title",
    joins := some ("JOIN location l ON p.location_id = l.id " ++
                   "JOIN theatre t ON l.theatre_id = t.id " ++
                   "JOIN production pr ON p.production_id = pr.id"),
    orderable := [("id", "p.id"), ("datetime", "p.datetime")],
    default_sort := "id",
    searchable := ["CAST(p.datetime AS CHAR)", "t.name", "l.hall_name", "pr.title"] }

def rehearsalsConfig : TableConfig :=
  { frm := "rehearsal r",
    select := "r.*, t.name AS theatre_name, l.hall_name, pr.title AS production_title",
    joins := some ("JOIN location l ON r.location_id = l.id " ++
                   "JOIN theatre t ON l.theatre_id = t.id " ++
                   "JOIN production pr ON r.production_id = pr.id"),
    orderable := [("id", "r.id"), ("datetime", "r.datetime")],
    default_sort := "id",
    searchable := ["CAST(r.datetime AS CHAR)", "t.name", "l.hall_name", "pr.title"] }

def rolesConfig : TableConfig :=
  { frm := "role r", select := "r.*, p.title AS play_title",
    joins := some "LEFT JOIN play p ON r.play_id = p.id",
    orderable := [("id", "r.id"), ("title", "r.title"), ("description", "r.description")],
    default_sort := "id",
    searchable := ["r.title", "r.description", "p.title"] }

def theatresConfig : TableConfig :=
  { frm := "theatre t", select := "t.*", joins := none,
    orderable := [("id", "t.id"), ("name", "t.name"), ("city", "t.city"),
                  ("street", "t.street"), ("house_number", "t.house_number"),
                  ("postal_code", "t.postal_code")],
    default_sort := "name",
    searchable := ["t.name", "t.city", "t.street", "t.house_number", "t.postal_code"] }

def locationsConfig : TableConfig :=
  { frm := "location l",
    select := "l.*, t.name AS theatre_name, t.city, t.street, t.house_number, t.postal_code",
    joins := some "JOIN theatre t ON l.theatre_id = t.id",
    orderable := [("id", "l.id"), ("theatre_name", "t.name"),
                  ("hall_name", "l.hall_name"), ("capacity", "l.capacity")],
    default_sort := "hall_name",
    searchable := ["t.name", "l.hall_name", "t.city", "t.street", "t.house_number", "t.postal_code"] }

/-- The full registry, in the order of the Python dict literal. -/
def TABLE_CONFIG : List (String × TableConfig) :=
  [("actors", actorsConfig), ("authors", authorsConfig), ("directors", directorsConfig),
   ("plays", playsConfig), ("productions", productionsConfig),
   ("performances", performancesConfig), ("rehearsals", rehearsalsConfig),
   ("roles", rolesConfig), ("theatres", theatresConfig), ("locations", locationsConfig)]

/-- `_get_table_config`: dict lookup; `none` models the raised
`ValueError` for an unknown key. -/
def _get_table_config (key : String) : Option TableConfig :=
  TABLE_CONFIG.lookup key

/-- `_resolve_sort_column`: use the requested column key if it is in the
orderable allow-list, otherwise the configured default.  `none` models a
`KeyError` on the final dict access (never reached for the registered
configurations). -/
def _resolve_sort_column (config : TableConfig) (sort_column : String) : Option String :=
  let column_key :=
    if (config.orderable.lookup sort_column).isSome then sort_column else config.default_sort
  config.orderable.lookup column_key

/-- Python `sort_column or config['default_sort']`: `None` and the empty
string are falsy and select the default. -/
def effectiveSortArg (config : TableConfig) (sort_column : Option String) : String :=
  match sort_column with
  | none => config.default_sort
  | some s => if s = "" then config.default_sort else s

/-- `_build_base_query`. -/
def _build_base_query (config : TableConfig) : String :=
  let query := "SELECT " ++ config.select ++ " FROM " ++ config.frm
  match config.joins with
  | some j => query ++ " " ++ j
  | none => query

/-- `_select_all`: the SQL text handed to `execute_query` (the
`force_refresh` flag does not change the statement). -/
def _select_all (key : String) (sort_column : Option String) (sort_ascending : Bool) :
    Option String :=
  match _get_table_config key with
  | none => none
  | some config =>
    match _resolve_sort_column config (effectiveSortArg config sort_column) with
    | none => none
    | some order_expr =>
      let direction := if sort_ascending then "ASC" else "DESC"
      some (_build_base_query config ++ " ORDER BY " ++ order_expr ++ " " ++ direction)

/-- `_search_records`: SQL text plus the bound parameter list.  An empty
search text falls through to `_select_all` (no parameters). -/
def _search_records (key : String) (search_text : String) (sort_column : Option String)
    (sort_ascending : Bool) : Option (String × List String) :=
  if search_text = "" then
    (_select_all key sort_column sort_ascending).map (fun q => (q, []))
  else
    match _get_table_config key with
    | none => none
    | some config =>
      let pattern := "%" ++ search_text ++ "%"
      let conditions := config.searchable.map (fun expr => expr ++ " LIKE %s")
      let where_clause := String.intercalate " OR " conditions
      match _resolve_sort_column config (effectiveSortArg config sort_column) with
      | none => none
      | some order_expr =>
        let direction := if sort_ascending then "ASC" else "DESC"
        some (_build_base_query config ++ " WHERE " ++ where_clause ++ " ORDER BY " ++
                order_expr ++ " " ++ direction,
              config.searchable.map (fun _ => pattern))

/-! #### Row-level semantics of the generated WHERE clause -/

/-- A result row: the value each searchable column expression renders to. -/
def Row : Type := List (String × String)

instance : DecidableEq Row := by unfold Row; exact inferInstance

/-- The value of a column expression in a row (missing → empty string). -/
def rowVal (row : Row) (colExpr : String) : String :=
  (row.lookup colExpr).getD ""

/-- Literal case-insensitive substring containment of the search text in
a column value — the relation the spec's substring-guarantee sentence
asserts.  It coincides with the store's `LIKE '%t%'` only when `t` has
no metacharacter. -/
def ciContains (value t : String) : Bool :=
  hasSubCI t.data value.data

/-- Semantics of one generated condition `expr LIKE %s` with the bound
pattern `%t%` under a case-insensitive collation: the code does not
escape `%`, `_` or `\` in `t`, so the store keeps their wildcard/escape
meaning (`likeMatch`). -/
def rowMatchesSearch (config : TableConfig) (t : String) (row : Row) : Bool :=
  config.searchable.any (fun expr => likeMatch ("%" ++ t ++ "%").data (rowVal row expr).data)

/-- Rows returned by the search statement: all rows for empty text
(`_search_records` defers to `_select_all`), otherwise those satisfying
the WHERE clause. -/
def searchFilterRows (config : TableConfig) (t : String) (rows : List Row) : List Row :=
  if t = "" then rows else rows.filter (rowMatchesSearch config t)

/-! ### `execute_query` retry loop -/

/-- Kinds of store-level exceptions reaching the `except` clause of
`execute_query` (connection loss, foreign-key violation, anything else).
The code does not inspect the kind. -/
inductive StoreErr where
  | transient
  | integrity
  | other
deriving DecidableEq, Repr

/-- Observable behaviour of one `execute_query` call: final outcome,
number of attempts made, and the sleeps (in milliseconds) taken between
attempts. -/
structure ExecTrace (R : Type) where
  result : Except StoreErr R
  attempts : Nat
  sleeps : List Nat
deriving Repr

/-- `asyncio.sleep(0.1)` between attempts, as milliseconds. -/
def retry_delay_ms : Nat := 100

/-- The `for attempt in range(max_retries)` loop of `execute_query`,
driven by an oracle giving the outcome of each attempt.  `fuel` counts
the loop iterations still available and always equals
`max_retries - attempt`; the `fuel = 0` case is unreachable. -/
def execAttemptLoop {R : Type} (outcome : Nat → Except StoreErr R) (max_retries : Nat) :
    Nat → Nat → ExecTrace R
  | attempt, fuel + 1 =>
    match outcome attempt with
    | .ok r => ⟨.ok r, attempt + 1, []⟩
    | .error e =>
      if attempt = max_retries - 1 then
        ⟨.error e, attempt + 1, []⟩          -- raise e  (the same exception object)
      else
        let t := execAttemptLoop outcome max_retries (attempt + 1) fuel
        ⟨t.result, t.attempts, retry_delay_ms :: t.sleeps⟩
  | attempt, 0 => ⟨.error .other, attempt, []⟩

/-- `execute_query(query, args, max_retries=3)`: run the attempt loop
from attempt 0. -/
def execute_query {R : Type} (outcome : Nat → Except StoreErr R)
    (max_retries : Nat := 3) : ExecTrace R :=
  execAttemptLoop outcome max_retries 0 max_retries

/-! ### Relational state and the Relationship Replacers -/

/-- The store tables the replacer claims touch: entity tables carry
(id, display name); association tables are row lists.
`actor_role` rows are (actor_id, role_id, production_id);
`actor_rehearsal` rows are (actor_id, rehearsal_id);
`author_play` rows are (author_id, play_id). -/
structure DBState where
  actors : List (Nat × String)
  roles : List (Nat × String)
  authors : List (Nat × String)
  productions : List Nat
  rehearsals : List Nat
  plays : List Nat
  actor_role : List (Nat × Nat × Nat)
  actor_rehearsal : List (Nat × Nat)
  author_play : List (Nat × Nat)
deriving DecidableEq, Repr

/-- `cur.executemany(INSERT ...)` into a two-column association table,
with the store enforcing the primary key (no duplicate row) and the two
foreign keys.  Any violation raises an integrity error. -/
def insertPairRows (fkLeft fkRight : Nat → Bool) (tbl : List (Nat × Nat)) :
    List (Nat × Nat) → Except String (List (Nat × Nat))
  | [] => .ok tbl
  | row :: rest =>
    if row ∈ tbl then .error "duplicate key"
    else if fkLeft row.1 && fkRight row.2 then
      insertPairRows fkLeft fkRight (tbl ++ [row]) rest
    else .error "foreign key violation"

/-- `cur.executemany(INSERT ...)` into the ternary `actor_role` table,
with primary-key and foreign-key checks. -/
def insertCastRows (fkActor fkRole fkProd : Nat → Bool) (tbl : List (Nat × Nat × Nat)) :
    List (Nat × Nat × Nat) → Except String (List (Nat × Nat × Nat))
  | [] => .ok tbl
  | row :: rest =>
    if row ∈ tbl then .error "duplicate key"
    else if fkActor row.1 && fkRole row.2.1 && fkProd row.2.2 then
      insertCastRows fkActor fkRole fkProd (tbl ++ [row]) rest
    else .error "foreign key violation"

/-- `set_production_cast`: begin; DELETE the production's `actor_role`
rows; bulk-INSERT the new cast; commit — or roll back and re-raise on
any failure.  The returned pair is (outcome, state visible to readers
after the call). -/
def set_production_cast (st : DBState) (production_id : Nat)
    (cast_data : List (Nat × Nat)) : Except String Unit × DBState :=
  let retained := st.actor_role.filter (fun ar => ar.2.2 != production_id)
  let new_rows := cast_data.map (fun item => (item.1, item.2, production_id))
  match insertCastRows (fun a => st.actors.any (fun x => x.1 == a))
      (fun r => st.roles.any (fun x => x.1 == r))
      (fun p => st.productions.contains p) retained new_rows with
  | .ok tbl => (.ok (), { st with actor_role := tbl })    -- commit
  | .error e => (.error e, st)                            -- rollback; raise e

/-- `set_rehearsal_actors`: same transaction over `actor_rehearsal`. -/
def set_rehearsal_actors (st : DBState) (rehearsal_id : Nat)
    (actor_ids : List Nat) : Except String Unit × DBState :=
  let retained := st.actor_rehearsal.filter (fun ar => ar.2 != rehearsal_id)
  let new_rows := actor_ids.map (fun a => (a, rehearsal_id))
  match insertPairRows (fun a => st.actors.any (fun x => x.1 == a))
      (fun r => st.rehearsals.contains r) retained new_rows with
  | .ok tbl => (.ok (), { st with actor_rehearsal := tbl })
  | .error e => (.error e, st)

/-- `set_play_authors`: same transaction over `author_play`. -/
def set_play_authors (st : DBState) (play_id : Nat)
    (author_ids : List Nat) : Except String Unit × DBState :=
  let retained := st.author_play.filter (fun ap => ap.2 != play_id)
  let new_rows := author_ids.map (fun a => (a, play_id))
  match insertPairRows (fun a => st.authors.any (fun x => x.1 == a))
      (fun p => st.plays.contains p) retained new_rows with
  | .ok tbl => (.ok (), { st with author_play := tbl })
  | .error e => (.error e, st)

/-- `get_cast_for_production`: join `actor_role` with `actor` and `role`
for one production; result rows are (actor_id, role_id).  The final
`ORDER BY a.full_name` is presentation order only and is dropped — the
claims about this read compare sets. -/
def get_cast_for_production (st : DBState) (production_id : Nat) : List (Nat × Nat) :=
  (st.actor_role.filter (fun ar => ar.2.2 == production_id)).flatMap (fun ar =>
    (st.actors.filter (fun a => a.1 == ar.1)).flatMap (fun a =>
      (st.roles.filter (fun r => r.1 == ar.2.1)).map (fun r => (a.1, r.1))))

/-- `get_actors_for_rehearsal`: actors joined through `actor_rehearsal`
(`ORDER BY a.full_name` dropped as above). -/
def get_actors_for_rehearsal (st : DBState) (rehearsal_id : Nat) : List (Nat × String) :=
  (st.actor_rehearsal.filter (fun ar => ar.2 == rehearsal_id)).flatMap (fun ar =>
    st.actors.filter (fun a => a.1 == ar.1))

/-- `get_authors_for_play`: authors joined through `author_play`. -/
def get_authors_for_play (st : DBState) (play_id : Nat) : List (Nat × String) :=
  (st.author_play.filter (fun ap => ap.2 == play_id)).flatMap (fun ap =>
    st.authors.filter (fun a => a.1 == ap.1))

/-! ### Local validators (`src/utils/validators.py`) -/

/-- Character class of the full-name regular expression
`^[А-ЯЁа-яёA-Za-z\s\-\.,]+$` (the Cyrillic block А..я is contiguous;
Ё and ё sit outside it). -/
def isNameChar (c : Char) : Bool :=
  isSpaceChar c || ('A' ≤ c && c ≤ 'Z') || ('a' ≤ c && c ≤ 'z') ||
    ('А' ≤ c && c ≤ 'я') || c == 'Ё' || c == 'ё' || c == '-' || c == '.' || c == ','

/-- `validate_full_name`: (is_valid, error message). -/
def validate_full_name (name : String) : Bool × Option String :=
  if name = "" then (false, some "Имя не может быть пустым")
  else
    let stripped := pyStrip name
    if stripped.length < 3 ∨ stripped.length > 255 then
      (false, some "Имя должно быть от 3 до 255 символов")
    else if ¬ stripped.data.all isNameChar then
      (false, some "Имя может содержать только буквы, пробелы, дефисы и точки")
    else (true, none)

/-- `validate_title`. -/
def validate_title (title : String) : Bool × Option String :=
  if title = "" then (false, some "Название не может быть пустым")
  else
    let stripped := pyStrip title
    if stripped.length < 2 ∨ stripped.length > 255 then
      (false, some "Название должно быть от 2 до 255 символов")
    else (true, none)

/-- `validate_year`: `None` is accepted; otherwise the year must lie in
`[1000, datetime.now().year + 10]`.  The current year is a parameter. -/
def validate_year (nowYear : Int) (year : Option Int) : Bool × Option String :=
  match year with
  | none => (true, none)
  | some y =>
    if y < 1000 ∨ y > nowYear + 10 then
      (false, some "Год должен быть от 1000 до nowYear + 10")
    else (true, none)

/-- Value of a digit-only character list, `none` if empty or non-digit. -/
def digitsVal (l : List Char) : Option Nat :=
  if l = [] then none
  else if l.all (fun c => '0' ≤ c && c ≤ '9') then
    some (l.foldl (fun acc c => acc * 10 + (c.toNat - 48)) 0)
  else none

/-- Split a character list on a separator character. -/
def splitChar (sep : Char) : List Char → List (List Char)
  | [] => [[]]
  | c :: rest =>
    if c == sep then [] :: splitChar sep rest
    else
      match splitChar sep rest with
      | [] => [[c]]
      | h :: t => (c :: h) :: t

/-- `validate_datetime`: requires the `YYYY-MM-DD HH:MM:SS` shape inside
`[1900-01-01 00:00:00, 2100-12-31 23:59:59]`.  The parse approximates
`strptime` (day-of-month bounds are not month-precise); none of the
claims depend on this function's verdict. -/
def validate_datetime (s : String) : Bool × Option String :=
  if s = "" then (false, some "Дата и время обязательны")
  else
    match splitChar ' ' s.data with
    | [d, t] =>
      (match splitChar '-' d, splitChar ':' t with
       | [ys, ms, ds], [hs, mis, ss] =>
         (match digitsVal ys, digitsVal ms, digitsVal ds,
                digitsVal hs, digitsVal mis, digitsVal ss with
          | some y, some mo, some da, some h, some mi, some se =>
            if 1 ≤ mo ∧ mo ≤ 12 ∧ 1 ≤ da ∧ da ≤ 31 ∧ h ≤ 23 ∧ mi ≤ 59 ∧ se ≤ 59 then
              if y < 1900 ∨ y > 2100 then
                (false, some "Дата и время должны быть между 1900-01-01 00:00:00 и 2100-12-31 23:59:59")
              else (true, none)
            else (false, some "Неверный формат даты и времени. Используйте YYYY-MM-DD HH:MM:SS")
          | _, _, _, _, _, _ =>
            (false, some "Неверный формат даты и времени. Используйте YYYY-MM-DD HH:MM:SS"))
       | _, _ => (false, some "Неверный формат даты и времени. Используйте YYYY-MM-DD HH:MM:SS"))
    | _ => (false, some "Неверный формат даты и времени. Используйте YYYY-MM-DD HH:MM:SS")

/-- `validate_capacity`: `None` is accepted; otherwise the capacity must
lie in `[1, 100000]`. -/
def validate_capacity (capacity : Option Int) : Bool × Option String :=
  match capacity with
  | none => (true, none)
  | some c =>
    if c ≤ 0 ∨ c > 100000 then (false, some "Вместимость должна быть от 1 до 100000")
    else (true, none)

/-! ### Single-row add/update operations -/

/-- A parameter value bound into a parameterized statement. -/
inductive SqlValue where
  | s (v : String)
  | i (v : Int)
  | null
deriving DecidableEq, Repr

/-- The one store call a successful single-row operation issues. -/
structure StoreCall where
  query : String
  params : List SqlValue
deriving DecidableEq, Repr

/-- Python truthiness of an optional integer id (`not x`): both `None`
and `0` are falsy. -/
def pyFalsyId (x : Option Nat) : Bool :=
  match x with
  | none => true
  | some n => n == 0

/-- `add_actor`: validate, then INSERT.  An error result is raised
before any store call is made. -/
def add_actor (full_name experience : String) : Except String StoreCall :=
  let v := validate_full_name full_name
  if v.1 then
    .ok ⟨"INSERT INTO actor (full_name, experience) VALUES (%s, %s)",
         [.s (pyStrip full_name), .s experience]⟩
  else .error (v.2.getD "")

/-- `update_actor`. -/
def update_actor (actor_id : Nat) (full_name experience : String) : Except String StoreCall :=
  let v := validate_full_name full_name
  if v.1 then
    .ok ⟨"UPDATE actor SET full_name=%s, experience=%s WHERE id=%s",
         [.s (pyStrip full_name), .s experience, .i actor_id]⟩
  else .error (v.2.getD "")

/-- `add_play`: validate title then year, then INSERT. -/
def add_play (nowYear : Int) (title genre : String) (year_written : Option Int)
    (description : String) : Except String StoreCall :=
  let v1 := validate_title title
  if v1.1 then
    let v2 := validate_year nowYear year_written
    if v2.1 then
      .ok ⟨"INSERT INTO play (title, genre, year_written, description) VALUES (%s, %s, %s, %s)",
           [.s (pyStrip title), .s genre,
            (match year_written with | some y => .i y | none => .null), .s description]⟩
    else .error (v2.2.getD "")
  else .error (v1.2.getD "")

/-- `update_play`. -/
def update_play (nowYear : Int) (play_id : Nat) (title genre : String)
    (year_written : Option Int) (description : String) : Except String StoreCall :=
  let v1 := validate_title title
  if v1.1 then
    let v2 := validate_year nowYear year_written
    if v2.1 then
      .ok ⟨"UPDATE play SET title=%s, genre=%s, year_written=%s, description=%s WHERE id=%s",
           [.s (pyStrip title), .s genre,
            (match year_written with | some y => .i y | none => .null), .s description,
            .i play_id]⟩
    else .error (v2.2.getD "")
  else .error (v1.2.getD "")

/-- `add_performance`: validate the datetime, require a location id
(Python `not location_id`), then INSERT. -/
def add_performance (dt : String) (location_id : Option Nat) (production_id : Nat) :
    Except String StoreCall :=
  let v := validate_datetime dt
  if v.1 then
    if pyFalsyId location_id then .error "Место проведения обязательно"
    else
      .ok ⟨"INSERT INTO performance (datetime, location_id, production_id) VALUES (%s, %s, %s)",
           [.s dt, .i (location_id.getD 0), .i production_id]⟩
  else .error (v.2.getD "")

/-- `update_performance`. -/
def update_performance (performance_id : Nat) (dt : String) (location_id : Option Nat)
    (production_id : Nat) : Except String StoreCall :=
  let v := validate_datetime dt
  if v.1 then
    if pyFalsyId location_id then .error "Место проведения обязательно"
    else
      .ok ⟨"UPDATE performance SET datetime=%s, location_id=%s, production_id=%s WHERE id=%s",
           [.s dt, .i (location_id.getD 0), .i production_id, .i performance_id]⟩
  else .error (v.2.getD "")

/-- `add_location`: require a theatre id, validate the hall name, then
the capacity when given (`validate_capacity` accepts `None`, matching
the `if capacity is not None` guard), then INSERT. -/
def add_location (theatre_id : Option Nat) (hall_name : String) (capacity : Option Int) :
    Except String StoreCall :=
  if pyFalsyId theatre_id then .error "Необходимо указать театр"
  else
    let v := validate_title hall_name
    if v.1 then
      let vc := validate_capacity capacity
      if vc.1 then
        .ok ⟨"INSERT INTO location (theatre_id, hall_name, capacity) VALUES (%s, %s, %s)",
             [.i (theatre_id.getD 0), .s (pyStrip hall_name),
              (match capacity with | some c => .i c | none => .null)]⟩
      else .error (vc.2.getD "")
    else .error (v.2.getD "")

/-- `update_location`. -/
def update_location (location_id : Nat) (theatre_id : Option Nat) (hall_name : String)
    (capacity : Option Int) : Except String StoreCall :=
  if pyFalsyId theatre_id then .error "Необходимо указать театр"
  else
    let v := validate_title hall_name
    if v.1 then
      let vc := validate_capacity capacity
      if vc.1 then
        .ok ⟨"UPDATE location SET theatre_id=%s, hall_name=%s, capacity=%s WHERE id=%s",
             [.i (theatre_id.getD 0), .s (pyStrip hall_name),
              (match capacity with | some c => .i c | none => .null), .i location_id]⟩
      else .error (vc.2.getD "")
    else .error (v.2.getD "")

/-! ### Statistics and unique-value helpers -/

/-- The store as seen by the helpers: `execute_query` for a statement
plus bound string parameters, possibly raising (also after retry
exhaustion). -/
def Store : Type := String → List String → Except StoreErr (List Row)

/-- The dashboard filter dict: `period`, and optional `director` /
`theatre` selections. -/
structure StatFilters where
  period : String
  director : Option String
  theatre : Option String
deriving DecidableEq, Repr

/-- The period filter condition added to `where_conditions` (the
`'весь'` period and unknown values add none). -/
def periodCondition (period : String) : Option String :=
  if period = "неделя" then some "r.datetime >= DATE_SUB(NOW(), INTERVAL 1 WEEK)"
  else if period = "месяц" then some "r.datetime >= DATE_SUB(NOW(), INTERVAL 1 MONTH)"
  else if period = "квартал" then some "r.datetime >= DATE_SUB(NOW(), INTERVAL 3 MONTH)"
  else if period = "год" then some "r.datetime >= DATE_SUB(NOW(), INTERVAL 1 YEAR)"
  else none

/-- Python `filters.get('director') and filters['director'] != 'все'`:
the director filter applies when present, non-empty and not `'все'`. -/
def activeChoice (choice : Option String) : Option String :=
  match choice with
  | none => none
  | some d => if d = "" ∨ d = "все" then none else some d

/-- The (where_conditions, joins, params) accumulation shared by
`get_rehearsals_by_month` and `get_filtered_rehearsals_count`
(the `"JOIN location loc" not in joins` dedup guards never fire on this
code path and are omitted). -/
def rehearsalFilterParts (filters : Option StatFilters) :
    List String × List String × List String :=
  match filters with
  | none => ([], [], [])
  | some f =>
    let c1 := match periodCondition f.period with | some c => [c] | none => []
    let dpart := match activeChoice f.director with
      | some d => (["JOIN production pr ON r.production_id = pr.id",
                    "JOIN director d ON pr.director_id = d.id"],
                   ["d.full_name = %s"], [d])
      | none => ([], [], [])
    let tpart := match activeChoice f.theatre with
      | some t => (["JOIN location loc ON r.location_id = loc.id",
                    "JOIN theatre t ON loc.theatre_id = t.id"],
                   ["t.name = %s"], [t])
      | none => ([], [], [])
    (c1 ++ dpart.2.1 ++ tpart.2.1, dpart.1 ++ tpart.1, dpart.2.2 ++ tpart.2.2)

/-- When no condition mentions `datetime`, restrict to the last year. -/
def withDateDefault (conds : List String) : List String :=
  if conds.any (fun c => hasSubCS "datetime".data c.data) then conds
  else conds ++ ["r.datetime >= DATE_SUB(NOW(), INTERVAL 1 YEAR)"]

/-- `get_rehearsals_by_month`: builds the grouped count query and, on any
store exception, logs and returns the empty list. -/
def get_rehearsals_by_month (store : Store) (filters : Option StatFilters) : List Row :=
  let parts := rehearsalFilterParts filters
  let conds := withDateDefault parts.1
  let join_clause := String.intercalate " " parts.2.1
  let where_clause := if conds = [] then "1=1" else String.intercalate " AND " conds
  let query := "SELECT DATE_FORMAT(r.datetime, \x27%%Y-%%m\x27) as month, COUNT(*) as count " ++
    "FROM rehearsal r " ++ join_clause ++ " WHERE " ++ where_clause ++
    " GROUP BY month ORDER BY month"
  match store query parts.2.2 with
  | .ok result => if result = [] then [] else result
  | .error _ => []

/-- `get_plays_by_genre`: fixed grouped count query; `[]` on any store
exception. -/
def get_plays_by_genre (store : Store) : List Row :=
  let query := "SELECT genre, COUNT(*) as count FROM play " ++
    "WHERE genre IS NOT NULL AND genre != \x27\x27 GROUP BY genre ORDER BY count DESC"
  match store query [] with
  | .ok result => if result = [] then [] else result
  | .error _ => []

/-- The WHERE conditions of `get_upcoming_rehearsals` (every filtered
branch also appends `r.datetime >= NOW()`). -/
def upcomingConditionsParams (filters : Option StatFilters) : List String × List String :=
  match filters with
  | none => (["r.datetime >= NOW()"], [])
  | some f =>
    let c1 := match periodCondition f.period with | some c => [c] | none => []
    let dpart := match activeChoice f.director with
      | some d => (["d.full_name = %s"], [d])
      | none => ([], [])
    let tpart := match activeChoice f.theatre with
      | some t => (["t.name = %s"], [t])
      | none => ([], [])
    (c1 ++ ["r.datetime >= NOW()"] ++ dpart.1 ++ tpart.1, dpart.2 ++ tpart.2)

/-- `get_upcoming_rehearsals`: joined detail query with a LIMIT; `[]` on
any store exception. -/
def get_upcoming_rehearsals (store : Store) (limit : Nat) (filters : Option StatFilters) :
    List Row :=
  let parts := upcomingConditionsParams filters
  let where_clause := if parts.1 = [] then "r.datetime >= NOW()"
    else String.intercalate " AND " parts.1
  let query := "SELECT r.*, pr.title as production_title, d.full_name as director_name, " ++
    "pl.title as play_title, pl.genre, t.name as theatre_name, l.hall_name as location_name " ++
    "FROM rehearsal r " ++
    "JOIN production pr ON r.production_id = pr.id " ++
    "JOIN play pl ON pr.play_id = pl.id " ++
    "JOIN director d ON pr.director_id = d.id " ++
    "JOIN location l ON r.location_id = l.id " ++
    "JOIN theatre t ON l.theatre_id = t.id " ++
    "WHERE " ++ where_clause ++ " ORDER BY r.datetime ASC LIMIT " ++ toString limit
  match store query parts.2 with
  | .ok result => if result = [] then [] else result
  | .error _ => []

/-- `result[0]['count']` of a count query row (the driver returns an
integer; rendered here as a decimal string). -/
def rowCount (row : Row) : Nat :=
  (digitsVal ((row.lookup "count").getD "").data).getD 0

/-- `get_filtered_rehearsals_count`: count query over the same filter
parts; `0` on an empty result or any store exception. -/
def get_filtered_rehearsals_count (store : Store) (filters : Option StatFilters) : Nat :=
  let parts := rehearsalFilterParts filters
  let join_clause := String.intercalate " " parts.2.1
  let where_clause := if parts.1 = [] then "1=1" else String.intercalate " AND " parts.1
  let query := "SELECT COUNT(*) as count FROM rehearsal r " ++ join_clause ++
    " WHERE " ++ where_clause
  match store query parts.2.2 with
  | .ok result =>
    match result with
    | row :: _ => rowCount row
    | [] => 0
  | .error _ => 0

/-- `_get_unique_values`: DISTINCT non-empty values of one column; `[]`
on any store exception. -/
def _get_unique_values (store : Store) (table column : String) : List String :=
  let query := "SELECT DISTINCT " ++ column ++ " AS value FROM " ++ table ++
    " WHERE " ++ column ++ " IS NOT NULL AND " ++ column ++ " != \x27\x27 ORDER BY value"
  match store query [] with
  | .ok rows => if rows = [] then [] else rows.map (fun r => (r.lookup "value").getD "")
  | .error _ => []

/-! ### Helper lemmas: registry lookups and sort resolution -/

lemma lookup_mem {β : Type} {l : List (String × β)} {k : String} {v : β}
    (h : l.lookup k = some v) : (k, v) ∈ l := by
  induction l with
  | nil => simp [List.lookup] at h
  | cons hd tl ih =>
    obtain ⟨a, b⟩ := hd
    simp only [List.lookup] at h
    split at h
    · next heq =>
      injection h with h'
      subst h'
      have hka : k = a := by simpa [beq_iff_eq] using heq
      subst hka
      exact List.mem_cons_self _ _
    · exact List.mem_cons_of_mem _ (ih h)

/-- Every registered configuration's default sort key is present in its
own orderable allow-list. -/
lemma table_config_defaults_registered :
    ∀ p ∈ TABLE_CONFIG, (p.2.orderable.lookup p.2.default_sort).isSome = true := by
  decide

/-- An out-of-allow-list (or absent, or empty) sort request resolves to
the expression of the configured default sort column. -/
lemma resolve_fallback (config : TableConfig) (sc : Option String)
    (hout : ∀ s, sc = some s → config.orderable.lookup s = none) :
    _resolve_sort_column config (effectiveSortArg config sc) =
      config.orderable.lookup config.default_sort := by
  cases sc with
  | none => simp [effectiveSortArg, _resolve_sort_column]
  | some s =>
    by_cases hs : s = ""
    · subst hs
      simp [effectiveSortArg, _resolve_sort_column]
    · have h := hout s rfl
      simp [effectiveSortArg, hs, _resolve_sort_column, h]

/-- Sort resolution never fails when the default sort key is registered. -/
lemma resolve_isSome (config : TableConfig)
    (hdef : (config.orderable.lookup config.default_sort).isSome = true) (k : String) :
    (_resolve_sort_column config k).isSome = true := by
  unfold _resolve_sort_column
  by_cases h : (config.orderable.lookup k).isSome
  · simp [h]
  · simp [h, hdef]

/-! ### Claims about the query composer -/

/-- C3: for every registered entity configuration and every caller-supplied
sort column outside its orderable allow-list (including none and the empty
string), the ORDER BY expression used by List is the one configured for the
default sort column, the resolution never fails, and the generated SQL is
identical to the default-sorted SQL — the raw request never reaches the
statement. -/
theorem sortColumn_allowlist_fallback (key : String) (config : TableConfig)
    (sc : Option String) (asc : Bool)
    (hkey : _get_table_config key = some config)
    (hout : ∀ s, sc = some s → config.orderable.lookup s = none) :
    _resolve_sort_column config (effectiveSortArg config sc) =
      config.orderable.lookup config.default_sort
    ∧ (_resolve_sort_column config (effectiveSortArg config sc)).isSome = true
    ∧ _select_all key sc asc = _select_all key none asc := by
  have hmem : (key, config) ∈ TABLE_CONFIG := lookup_mem hkey
  have hdef := table_config_defaults_registered _ hmem
  have hres := resolve_fallback config sc hout
  have hresNone := resolve_fallback config none (by intro s hs; cases hs)
  refine ⟨hres, ?_, ?_⟩
  · rw [hres]; exact hdef
  · simp only [_select_all, hkey, hres, hresNone]

theorem sortColumn_allowlist_fallback_witness :
    _resolve_sort_column actorsConfig (effectiveSortArg actorsConfig (some "bogus")) =
      actorsConfig.orderable.lookup actorsConfig.default_sort
    ∧ (_resolve_sort_column actorsConfig (effectiveSortArg actorsConfig (some "bogus"))).isSome = true
    ∧ _select_all "actors" (some "bogus") true = _select_all "actors" none true :=
  sortColumn_allowlist_fallback "actors" actorsConfig (some "bogus") true (by decide)
    (by intro s hs; injection hs with h; subst h; decide)

/-- C4: Search with empty text builds exactly the List statement for the
same sort parameters (same SQL text, no bound parameters), and at row
level keeps all rows in their original order rather than matching
nothing. -/
theorem empty_search_is_list (key : String) (sc : Option String) (asc : Bool)
    (config : TableConfig) (rows : List Row) :
    _search_records key "" sc asc =
      (_select_all key sc asc).map (fun q => (q, ([] : List String)))
    ∧ searchFilterRows config "" rows = rows := by
  constructor
  · simp [_search_records]
  · simp [searchFilterRows]

/-- A case-insensitive leading match is in particular a containment. -/
lemma leadMatchCI_hasSubCI (t s : List Char) (h : leadMatchCI t s = true) :
    hasSubCI t s = true := by
  cases s with
  | nil =>
    cases t with
    | nil => rfl
    | cons c t1 => exact Bool.noConfusion h
  | cons c rest =>
    show (leadMatchCI t (c :: rest) || hasSubCI t rest) = true
    rw [h, Bool.true_or]

/-- A metacharacter-free pattern head followed by `%` matches only
subjects led by that head (case-insensitively). -/
lemma likeMatchF_literal_lead : ∀ (fuel : Nat) (t : List Char),
    (∀ c ∈ t, ¬ c = '%' ∧ ¬ c = '_' ∧ ¬ c = '\\') →
    ∀ s : List Char, likeMatchF fuel (t ++ ['%']) s = true → leadMatchCI t s = true := by
  intro fuel
  induction fuel with
  | zero => intro t _ s h; exact Bool.noConfusion h
  | succ fuel ih =>
    intro t hlit s h
    cases t with
    | nil => rfl
    | cons c t1 =>
      have hc := hlit c (List.mem_cons_self _ _)
      rw [List.cons_append] at h
      simp only [likeMatchF] at h
      rw [if_neg hc.1, if_neg hc.2.1, if_neg hc.2.2] at h
      cases s with
      | nil => exact Bool.noConfusion h
      | cons d s1 =>
        replace h : ((lowerChar c == lowerChar d) && likeMatchF fuel (t1 ++ ['%']) s1) = true := h
        rw [Bool.and_eq_true] at h
        show ((lowerChar c == lowerChar d) && leadMatchCI t1 s1) = true
        rw [Bool.and_eq_true]
        exact ⟨h.1, ih t1 (fun x hx => hlit x (List.mem_cons_of_mem _ hx)) s1 h.2⟩

/-- For metacharacter-free `t`, a `%t%` LIKE match implies literal
case-insensitive containment of `t`. -/
lemma likeMatchF_contains : ∀ (fuel : Nat) (t : List Char),
    (∀ c ∈ t, ¬ c = '%' ∧ ¬ c = '_' ∧ ¬ c = '\\') →
    ∀ s : List Char, likeMatchF fuel ('%' :: (t ++ ['%'])) s = true → hasSubCI t s = true := by
  intro fuel
  induction fuel with
  | zero => intro t _ s h; exact Bool.noConfusion h
  | succ fuel ih =>
    intro t hlit s h
    simp only [likeMatchF] at h
    rw [if_true, Bool.or_eq_true] at h
    rcases h with h | h
    · exact leadMatchCI_hasSubCI t s (likeMatchF_literal_lead fuel t hlit s h)
    · cases s with
      | nil => exact Bool.noConfusion h
      | cons d s1 =>
        replace h : likeMatchF fuel ('%' :: (t ++ ['%'])) s1 = true := h
        show (leadMatchCI t (d :: s1) || hasSubCI t s1) = true
        rw [ih t hlit s1 h, Bool.or_true]

/-- C5 counterexample: the code binds the search text into the `%t%`
pattern without escaping LIKE metacharacters, so for the text `%` the
WHERE clause keeps a row none of whose searchable columns contains `%`
as a substring — the claimed substring guarantee fails as stated over
all non-empty search texts. -/
theorem search_like_wildcard_counterexample :
    ([("a.full_name", "Bob"), ("a.experience", "junior")] : Row) ∈
        searchFilterRows actorsConfig "%"
          [[("a.full_name", "Bob"), ("a.experience", "junior")]]
    ∧ ∀ expr ∈ actorsConfig.searchable,
        ciContains (rowVal [("a.full_name", "Bob"), ("a.experience", "junior")] expr) "%"
          = false := by
  decide

/-- C5 amended: for non-empty search text the generated statement
OR-combines one parameterized `LIKE %s` condition per searchable column
and binds the pattern `%t%` once per searchable column (never
interpolated into the SQL text); and whenever the text is free of the
LIKE metacharacters `%`, `_` and `\` — which the code leaves unescaped —
every row kept by the WHERE clause has at least one searchable column
containing the text as a case-insensitive substring. -/
theorem search_like_shape_amended (key : String) (config : TableConfig) (t : String)
    (sc : Option String) (asc : Bool)
    (hkey : _get_table_config key = some config) (ht : ¬ t = "") :
    (∃ order_expr, _resolve_sort_column config (effectiveSortArg config sc) = some order_expr ∧
      _search_records key t sc asc = some
        (_build_base_query config ++ " WHERE " ++
            String.intercalate " OR " (config.searchable.map (fun expr => expr ++ " LIKE %s")) ++
            " ORDER BY " ++ order_expr ++ " " ++ (if asc then "ASC" else "DESC"),
         config.searchable.map (fun _ => "%" ++ t ++ "%")))
    ∧ ((∀ c ∈ t.data, ¬ c = '%' ∧ ¬ c = '_' ∧ ¬ c = '\\') →
        ∀ rows row, row ∈ searchFilterRows config t rows →
          ∃ expr ∈ config.searchable, ciContains (rowVal row expr) t = true) := by
  have hdef := table_config_defaults_registered _ (lookup_mem hkey)
  have hsome := resolve_isSome config hdef (effectiveSortArg config sc)
  obtain ⟨order_expr, heq⟩ := Option.isSome_iff_exists.mp hsome
  constructor
  · exact ⟨order_expr, heq, by simp [_search_records, ht, hkey, heq]⟩
  · intro hlit rows row hrow
    simp only [searchFilterRows, if_neg ht, List.mem_filter] at hrow
    have hany := hrow.2
    rw [rowMatchesSearch, List.any_eq_true] at hany
    obtain ⟨expr, hexpr, hmatch⟩ := hany
    refine ⟨expr, hexpr, ?_⟩
    have hpat : ("%" ++ t ++ "%").data = '%' :: (t.data ++ ['%']) := rfl
    rw [hpat, likeMatch] at hmatch
    exact likeMatchF_contains _ t.data hlit (rowVal row expr).data hmatch

theorem search_like_shape_amended_witness :
    (∃ order_expr,
        _resolve_sort_column actorsConfig (effectiveSortArg actorsConfig none) = some order_expr ∧
      _search_records "actors" "am" none true = some
        (_build_base_query actorsConfig ++ " WHERE " ++
            String.intercalate " OR "
              (actorsConfig.searchable.map (fun expr => expr ++ " LIKE %s")) ++
            " ORDER BY " ++ order_expr ++ " " ++ (if true then "ASC" else "DESC"),
         actorsConfig.searchable.map (fun _ => "%" ++ "am" ++ "%")))
    ∧ ((∀ c ∈ "am".data, ¬ c = '%' ∧ ¬ c = '_' ∧ ¬ c = '\\') →
        ∀ rows row, row ∈ searchFilterRows actorsConfig "am" rows →
          ∃ expr ∈ actorsConfig.searchable, ciContains (rowVal row expr) "am" = true) :=
  search_like_shape_amended "actors" actorsConfig "am" none true (by decide) (by decide)

/-- C9: the registry's default sort column is `name` for theatres,
`hall_name` for locations and `id` for the other eight entities, so an
out-of-allow-list sort request falls back to name order for theatres and
hall-name order for locations, not id order. -/
theorem default_sort_not_uniform (sc : Option String)
    (hT : ∀ s, sc = some s → theatresConfig.orderable.lookup s = none)
    (hL : ∀ s, sc = some s → locationsConfig.orderable.lookup s = none) :
    TABLE_CONFIG.map (fun p => (p.1, p.2.default_sort)) =
      [("actors", "id"), ("authors", "id"), ("directors", "id"), ("plays", "id"),
       ("productions", "id"), ("performances", "id"), ("rehearsals", "id"),
       ("roles", "id"), ("theatres", "name"), ("locations", "hall_name")]
    ∧ _resolve_sort_column theatresConfig (effectiveSortArg theatresConfig sc) = some "t.name"
    ∧ _resolve_sort_column locationsConfig (effectiveSortArg locationsConfig sc) =
        some "l.hall_name" := by
  refine ⟨by decide, ?_, ?_⟩
  · rw [resolve_fallback _ _ hT]; decide
  · rw [resolve_fallback _ _ hL]; decide

theorem default_sort_not_uniform_witness :
    TABLE_CONFIG.map (fun p => (p.1, p.2.default_sort)) =
      [("actors", "id"), ("authors", "id"), ("directors", "id"), ("plays", "id"),
       ("productions", "id"), ("performances", "id"), ("rehearsals", "id"),
       ("roles", "id"), ("theatres", "name"), ("locations", "hall_name")]
    ∧ _resolve_sort_column theatresConfig (effectiveSortArg theatresConfig (some "zzz")) =
        some "t.name"
    ∧ _resolve_sort_column locationsConfig (effectiveSortArg locationsConfig (some "zzz")) =
        some "l.hall_name" :=
  default_sort_not_uniform (some "zzz")
    (by intro s hs; injection hs with h; subst h; decide)
    (by intro s hs; injection hs with h; subst h; decide)

/-! ### Claims about the `execute_query` retry loop -/

/-- C6: when every attempt fails, `execute_query` makes exactly its
configured 3 attempts with a 0.1-second (100 ms) sleep between
consecutive attempts, and the error re-raised after the final attempt is
exactly the final attempt's underlying error, unchanged. -/
theorem retry_exhaustion_surfaces_error {R : Type} (outcome : Nat → Except StoreErr R)
    (err : Nat → StoreErr) (hfail : ∀ i, i < 3 → outcome i = .error (err i)) :
    execute_query outcome =
      ⟨.error (err 2), 3, [retry_delay_ms, retry_delay_ms]⟩
    ∧ retry_delay_ms = 100 := by
  have h0 := hfail 0 (by omega)
  have h1 := hfail 1 (by omega)
  have h2 := hfail 2 (by omega)
  refine ⟨?_, rfl⟩
  simp [execute_query, execAttemptLoop, h0, h1, h2]

theorem retry_exhaustion_surfaces_error_witness :
    execute_query (fun _ => (Except.error StoreErr.transient : Except StoreErr Nat)) =
      ⟨.error StoreErr.transient, 3, [retry_delay_ms, retry_delay_ms]⟩
    ∧ retry_delay_ms = 100 :=
  retry_exhaustion_surfaces_error (fun _ => (Except.error StoreErr.transient : Except StoreErr Nat))
    (fun _ => StoreErr.transient) (fun _ _ => rfl)

/-- C7 counterexample: an integrity error (foreign-key violation on a
delete) does enter the retry loop — `execute_query` catches every
exception alike, so a persistent integrity error is attempted 3 times
with sleeps between attempts, not surfaced on the first attempt. -/
theorem integrity_error_is_retried_counterexample :
    (execute_query (fun _ => (Except.error StoreErr.integrity : Except StoreErr Nat))).attempts = 3
    ∧ ¬ (execute_query
          (fun _ => (Except.error StoreErr.integrity : Except StoreErr Nat))).attempts = 1
    ∧ (execute_query (fun _ => (Except.error StoreErr.integrity : Except StoreErr Nat))).sleeps =
        [retry_delay_ms, retry_delay_ms] := by
  refine ⟨?_, by simp [execute_query, execAttemptLoop], ?_⟩ <;>
    simp [execute_query, execAttemptLoop]

/-- C7 amended: `execute_query` treats every store exception uniformly —
an integrity error, like any other error, is retried up to the 3
configured attempts with the fixed delay and is then surfaced to the
caller unchanged; no error enters a first-attempt-only path inside the
retry loop. -/
theorem integrity_error_retried_uniformly (e : StoreErr) :
    execute_query (fun _ => (Except.error e : Except StoreErr Nat)) =
      ⟨.error e, 3, [retry_delay_ms, retry_delay_ms]⟩ := by
  simp [execute_query, execAttemptLoop]

/-! ### Claims about local validation -/

lemma validate_full_name_short (name : String) (h : (pyStrip name).length < 3) :
    (validate_full_name name).1 = false := by
  by_cases h0 : name = ""
  · simp [validate_full_name, h0]
  · simp only [validate_full_name, if_neg h0]
    rw [if_pos (Or.inl h)]

lemma validate_year_out (nowYear y : Int) (h : y < 1000 ∨ y > nowYear + 10) :
    (validate_year nowYear (some y)).1 = false := by
  simp only [validate_year]
  rw [if_pos h]

lemma validate_capacity_nonpos (c : Int) (h : c ≤ 0) :
    (validate_capacity (some c)).1 = false := by
  simp only [validate_capacity]
  rw [if_pos (Or.inl h)]

lemma add_play_error_of_bad_year (nowYear : Int) (title genre description : String) (y : Int)
    (hy : (validate_year nowYear (some y)).1 = false) :
    ∃ m, add_play nowYear title genre (some y) description = .error m := by
  cases ht : (validate_title title).1 with
  | false => exact ⟨(validate_title title).2.getD "", by simp [add_play, ht]⟩
  | true => exact ⟨(validate_year nowYear (some y)).2.getD "", by simp [add_play, ht, hy]⟩

lemma update_play_error_of_bad_year (nowYear : Int) (play_id : Nat)
    (title genre description : String) (y : Int)
    (hy : (validate_year nowYear (some y)).1 = false) :
    ∃ m, update_play nowYear play_id title genre (some y) description = .error m := by
  cases ht : (validate_title title).1 with
  | false => exact ⟨(validate_title title).2.getD "", by simp [update_play, ht]⟩
  | true => exact ⟨(validate_year nowYear (some y)).2.getD "", by simp [update_play, ht, hy]⟩

/-- C8: a local validation failure makes every listed add/update operation
return a value error without ever producing a store call (an `.error`
result carries no `StoreCall`): a full name whose stripped length is
below 3 characters, a play year of 500 or 3000, a missing (or zero, which
Python treats as falsy) `location_id`, and a non-positive capacity. -/
theorem local_validation_rejects
    (name experience : String) (actor_id : Nat)
    (nowYear : Int) (title genre description : String) (play_id : Nat)
    (dt : String) (location_id : Option Nat) (production_id performance_id : Nat)
    (theatre_id : Option Nat) (hall_name : String) (location_row_id : Nat) (cap : Int)
    (hname : (pyStrip name).length < 3)
    (hnow : nowYear + 10 < 3000)
    (hloc : pyFalsyId location_id = true)
    (hcap : cap ≤ 0) :
    (∃ m, add_actor name experience = .error m)
    ∧ (∃ m, update_actor actor_id name experience = .error m)
    ∧ (∃ m, add_play nowYear title genre (some 500) description = .error m)
    ∧ (∃ m, add_play nowYear title genre (some 3000) description = .error m)
    ∧ (∃ m, update_play nowYear play_id title genre (some 500) description = .error m)
    ∧ (∃ m, update_play nowYear play_id title genre (some 3000) description = .error m)
    ∧ (∃ m, add_performance dt location_id production_id = .error m)
    ∧ (∃ m, update_performance performance_id dt location_id production_id = .error m)
    ∧ (∃ m, add_location theatre_id hall_name (some cap) = .error m)
    ∧ (∃ m, update_location location_row_id theatre_id hall_name (some cap) = .error m) := by
  have hv := validate_full_name_short name hname
  have hy500 : (validate_year nowYear (some 500)).1 = false :=
    validate_year_out nowYear 500 (Or.inl (by omega))
  have hy3000 : (validate_year nowYear (some 3000)).1 = false :=
    validate_year_out nowYear 3000 (Or.inr (by omega))
  have hvc := validate_capacity_nonpos cap hcap
  refine ⟨⟨(validate_full_name name).2.getD "", by simp [add_actor, hv]⟩,
    ⟨(validate_full_name name).2.getD "", by simp [update_actor, hv]⟩,
    add_play_error_of_bad_year nowYear title genre description 500 hy500,
    add_play_error_of_bad_year nowYear title genre description 3000 hy3000,
    update_play_error_of_bad_year nowYear play_id title genre description 500 hy500,
    update_play_error_of_bad_year nowYear play_id title genre description 3000 hy3000,
    ?_, ?_, ?_, ?_⟩
  · cases hd : (validate_datetime dt).1 with
    | false => exact ⟨(validate_datetime dt).2.getD "", by simp [add_performance, hd]⟩
    | true => exact ⟨"Место проведения обязательно", by simp [add_performance, hd, hloc]⟩
  · cases hd : (validate_datetime dt).1 with
    | false => exact ⟨(validate_datetime dt).2.getD "", by simp [update_performance, hd]⟩
    | true => exact ⟨"Место проведения обязательно", by simp [update_performance, hd, hloc]⟩
  · cases hth : pyFalsyId theatre_id with
    | true => exact ⟨"Необходимо указать театр", by simp [add_location, hth]⟩
    | false =>
      cases hh : (validate_title hall_name).1 with
      | false => exact ⟨(validate_title hall_name).2.getD "", by simp [add_location, hth, hh]⟩
      | true =>
        exact ⟨(validate_capacity (some cap)).2.getD "",
          by simp [add_location, hth, hh, hvc]⟩
  · cases hth : pyFalsyId theatre_id with
    | true => exact ⟨"Необходимо указать театр", by simp [update_location, hth]⟩
    | false =>
      cases hh : (validate_title hall_name).1 with
      | false => exact ⟨(validate_title hall_name).2.getD "", by simp [update_location, hth, hh]⟩
      | true =>
        exact ⟨(validate_capacity (some cap)).2.getD "",
          by simp [update_location, hth, hh, hvc]⟩

theorem local_validation_rejects_witness :
    (∃ m, add_actor "ab" "junior" = .error m)
    ∧ (∃ m, update_actor 1 "ab" "junior" = .error m)
    ∧ (∃ m, add_play 2026 "Hamlet" "Tragedy" (some 500) "" = .error m)
    ∧ (∃ m, add_play 2026 "Hamlet" "Tragedy" (some 3000) "" = .error m)
    ∧ (∃ m, update_play 2026 2 "Hamlet" "Tragedy" (some 500) "" = .error m)
    ∧ (∃ m, update_play 2026 2 "Hamlet" "Tragedy" (some 3000) "" = .error m)
    ∧ (∃ m, add_performance "2026-01-01 10:00:00" none 3 = .error m)
    ∧ (∃ m, update_performance 4 "2026-01-01 10:00:00" none 3 = .error m)
    ∧ (∃ m, add_location (some 1) "Main Hall" (some 0) = .error m)
    ∧ (∃ m, update_location 5 (some 1) "Main Hall" (some 0) = .error m) :=
  local_validation_rejects "ab" "junior" 1 2026 "Hamlet" "Tragedy" "" 2
    "2026-01-01 10:00:00" none 3 4 (some 1) "Main Hall" 5 0
    (by decide) (by decide) (by decide) (by decide)

/-! ### Claim about the statistics helpers -/

/-- C10: the statistics and unique-value helpers wrap their store access
in a catch-all handler — whatever error the store raises (including after
retry exhaustion) they return the empty list, or 0 for the count, instead
of propagating it. -/
theorem stats_swallow_store_errors (store : Store) (e : StoreErr)
    (hfail : ∀ q p, store q p = .error e)
    (filters : Option StatFilters) (limit : Nat) (table column : String) :
    get_rehearsals_by_month store filters = []
    ∧ get_plays_by_genre store = []
    ∧ get_upcoming_rehearsals store limit filters = []
    ∧ get_filtered_rehearsals_count store filters = 0
    ∧ _get_unique_values store table column = [] := by
  refine ⟨?_, ?_, ?_, ?_, ?_⟩ <;>
    simp [get_rehearsals_by_month, get_plays_by_genre, get_upcoming_rehearsals,
      get_filtered_rehearsals_count, _get_unique_values, hfail]

theorem stats_swallow_store_errors_witness :
    get_rehearsals_by_month (fun _ _ => .error .transient) none = []
    ∧ get_plays_by_genre (fun _ _ => .error .transient) = []
    ∧ get_upcoming_rehearsals (fun _ _ => .error .transient) 10 none = []
    ∧ get_filtered_rehearsals_count (fun _ _ => .error .transient) none = 0
    ∧ _get_unique_values (fun _ _ => .error .transient) "play" "genre" = [] :=
  stats_swallow_store_errors (fun _ _ => .error .transient) .transient
    (fun _ _ => rfl) none 10 "play" "genre"

/-! ### Helper lemmas: constrained bulk inserts -/

lemma insertPairRows_eq_ok (fkL fkR : Nat → Bool) :
    ∀ (rows tbl : List (Nat × Nat)), rows.Nodup →
      (∀ r ∈ rows, r ∉ tbl) →
      (∀ r ∈ rows, fkL r.1 = true ∧ fkR r.2 = true) →
      insertPairRows fkL fkR tbl rows = .ok (tbl ++ rows) := by
  intro rows
  induction rows with
  | nil =>
    intro tbl _ _ _
    simp [insertPairRows]
  | cons r rest ih =>
    intro tbl hnd hni hfk
    have hr := hfk r (List.mem_cons_self _ _)
    have hnir : r ∉ tbl := hni r (List.mem_cons_self _ _)
    rw [insertPairRows, if_neg hnir, if_pos (by simp [hr.1, hr.2])]
    have hnd' : rest.Nodup := (List.nodup_cons.mp hnd).2
    have hnr : r ∉ rest := (List.nodup_cons.mp hnd).1
    have hni' : ∀ x ∈ rest, x ∉ tbl ++ [r] := by
      intro x hx
      simp only [List.mem_append, List.mem_singleton]
      rintro (hmem | rfl)
      · exact hni x (List.mem_cons_of_mem _ hx) hmem
      · exact hnr hx
    have hfk' : ∀ x ∈ rest, fkL x.1 = true ∧ fkR x.2 = true :=
      fun x hx => hfk x (List.mem_cons_of_mem _ hx)
    rw [ih (tbl ++ [r]) hnd' hni' hfk']
    simp

lemma insertPairRows_ok_shape (fkL fkR : Nat → Bool) :
    ∀ (rows tbl res : List (Nat × Nat)),
      insertPairRows fkL fkR tbl rows = .ok res → res = tbl ++ rows := by
  intro rows
  induction rows with
  | nil =>
    intro tbl res h
    simp only [insertPairRows, Except.ok.injEq] at h
    simp [← h]
  | cons r rest ih =>
    intro tbl res h
    simp only [insertPairRows] at h
    split at h
    · simp at h
    · split at h
      · have := ih (tbl ++ [r]) res h
        simp [this]
      · simp at h

lemma insertCastRows_eq_ok (fkA fkR fkP : Nat → Bool) :
    ∀ (rows tbl : List (Nat × Nat × Nat)), rows.Nodup →
      (∀ r ∈ rows, r ∉ tbl) →
      (∀ r ∈ rows, fkA r.1 = true ∧ fkR r.2.1 = true ∧ fkP r.2.2 = true) →
      insertCastRows fkA fkR fkP tbl rows = .ok (tbl ++ rows) := by
  intro rows
  induction rows with
  | nil =>
    intro tbl _ _ _
    simp [insertCastRows]
  | cons r rest ih =>
    intro tbl hnd hni hfk
    have hr := hfk r (List.mem_cons_self _ _)
    have hnir : r ∉ tbl := hni r (List.mem_cons_self _ _)
    rw [insertCastRows, if_neg hnir, if_pos (by simp [hr.1, hr.2.1, hr.2.2])]
    have hnd' : rest.Nodup := (List.nodup_cons.mp hnd).2
    have hnr : r ∉ rest := (List.nodup_cons.mp hnd).1
    have hni' : ∀ x ∈ rest, x ∉ tbl ++ [r] := by
      intro x hx
      simp only [List.mem_append, List.mem_singleton]
      rintro (hmem | rfl)
      · exact hni x (List.mem_cons_of_mem _ hx) hmem
      · exact hnr hx
    have hfk' : ∀ x ∈ rest, fkA x.1 = true ∧ fkR x.2.1 = true ∧ fkP x.2.2 = true :=
      fun x hx => hfk x (List.mem_cons_of_mem _ hx)
    rw [ih (tbl ++ [r]) hnd' hni' hfk']
    simp

lemma insertCastRows_ok_shape (fkA fkR fkP : Nat → Bool) :
    ∀ (rows tbl res : List (Nat × Nat × Nat)),
      insertCastRows fkA fkR fkP tbl rows = .ok res → res = tbl ++ rows := by
  intro rows
  induction rows with
  | nil =>
    intro tbl res h
    simp only [insertCastRows, Except.ok.injEq] at h
    simp [← h]
  | cons r rest ih =>
    intro tbl res h
    simp only [insertCastRows] at h
    split at h
    · simp at h
    · split at h
      · have := ih (tbl ++ [r]) res h
        simp [this]
      · simp at h

/-! ### Helper lemmas: replacer success states -/

lemma set_production_cast_ok (st : DBState) (production_id : Nat)
    (cast_data : List (Nat × Nat))
    (hnd : cast_data.Nodup)
    (hfk : ∀ c ∈ cast_data, (∃ a ∈ st.actors, a.1 = c.1) ∧ (∃ r ∈ st.roles, r.1 = c.2))
    (hp : production_id ∈ st.productions) :
    set_production_cast st production_id cast_data =
      (.ok (), { st with actor_role :=
                  st.actor_role.filter (fun ar => ar.2.2 != production_id) ++
                    cast_data.map (fun item => (item.1, item.2, production_id)) }) := by
  have hinj : Function.Injective
      (fun item : Nat × Nat => (item.1, item.2, production_id)) := by
    intro x y hxy
    cases x; cases y; simp_all
  have hins := insertCastRows_eq_ok
    (fun a => st.actors.any (fun x => x.1 == a))
    (fun r => st.roles.any (fun x => x.1 == r))
    (fun p => st.productions.contains p)
    (cast_data.map (fun item => (item.1, item.2, production_id)))
    (st.actor_role.filter (fun ar => ar.2.2 != production_id))
    (hnd.map hinj)
    (by
      intro r hr
      simp only [List.mem_map] at hr
      obtain ⟨c, _, rfl⟩ := hr
      intro hmem
      simp only [List.mem_filter, bne_iff_ne] at hmem
      exact hmem.2 rfl)
    (by
      intro r hr
      simp only [List.mem_map] at hr
      obtain ⟨c, hc, rfl⟩ := hr
      obtain ⟨⟨a, ha, hax⟩, ⟨ro, hro, hry⟩⟩ := hfk c hc
      refine ⟨?_, ?_, ?_⟩
      · simp only [List.any_eq_true, beq_iff_eq]
        exact ⟨a, ha, hax⟩
      · simp only [List.any_eq_true, beq_iff_eq]
        exact ⟨ro, hro, hry⟩
      · simpa using hp)
  simp only [set_production_cast]
  rw [hins]

lemma set_rehearsal_actors_ok (st : DBState) (rehearsal_id : Nat) (actor_ids : List Nat)
    (hnd : actor_ids.Nodup)
    (hfk : ∀ a ∈ actor_ids, ∃ x ∈ st.actors, x.1 = a)
    (hreh : rehearsal_id ∈ st.rehearsals) :
    set_rehearsal_actors st rehearsal_id actor_ids =
      (.ok (), { st with actor_rehearsal :=
                  st.actor_rehearsal.filter (fun ar => ar.2 != rehearsal_id) ++
                    actor_ids.map (fun a => (a, rehearsal_id)) }) := by
  have hinj : Function.Injective (fun a : Nat => (a, rehearsal_id)) := by
    intro x y hxy
    simpa using hxy
  have hins := insertPairRows_eq_ok
    (fun a => st.actors.any (fun x => x.1 == a))
    (fun r => st.rehearsals.contains r)
    (actor_ids.map (fun a => (a, rehearsal_id)))
    (st.actor_rehearsal.filter (fun ar => ar.2 != rehearsal_id))
    (hnd.map hinj)
    (by
      intro r hr
      simp only [List.mem_map] at hr
      obtain ⟨a, _, rfl⟩ := hr
      intro hmem
      simp only [List.mem_filter, bne_iff_ne] at hmem
      exact hmem.2 rfl)
    (by
      intro r hr
      simp only [List.mem_map] at hr
      obtain ⟨a, ha, rfl⟩ := hr
      obtain ⟨x, hx, hxa⟩ := hfk a ha
      refine ⟨?_, ?_⟩
      · simp only [List.any_eq_true, beq_iff_eq]
        exact ⟨x, hx, hxa⟩
      · simpa using hreh)
  simp only [set_rehearsal_actors]
  rw [hins]

lemma set_play_authors_ok (st : DBState) (play_id : Nat) (author_ids : List Nat)
    (hnd : author_ids.Nodup)
    (hfk : ∀ a ∈ author_ids, ∃ x ∈ st.authors, x.1 = a)
    (hpl : play_id ∈ st.plays) :
    set_play_authors st play_id author_ids =
      (.ok (), { st with author_play :=
                  st.author_play.filter (fun ap => ap.2 != play_id) ++
                    author_ids.map (fun a => (a, play_id)) }) := by
  have hinj : Function.Injective (fun a : Nat => (a, play_id)) := by
    intro x y hxy
    simpa using hxy
  have hins := insertPairRows_eq_ok
    (fun a => st.authors.any (fun x => x.1 == a))
    (fun p => st.plays.contains p)
    (author_ids.map (fun a => (a, play_id)))
    (st.author_play.filter (fun ap => ap.2 != play_id))
    (hnd.map hinj)
    (by
      intro r hr
      simp only [List.mem_map] at hr
      obtain ⟨a, _, rfl⟩ := hr
      intro hmem
      simp only [List.mem_filter, bne_iff_ne] at hmem
      exact hmem.2 rfl)
    (by
      intro r hr
      simp only [List.mem_map] at hr
      obtain ⟨a, ha, rfl⟩ := hr
      obtain ⟨x, hx, hxa⟩ := hfk a ha
      refine ⟨?_, ?_⟩
      · simp only [List.any_eq_true, beq_iff_eq]
        exact ⟨x, hx, hxa⟩
      · simpa using hpl)
  simp only [set_play_authors]
  rw [hins]

/-! ### Helper lemmas: read-side join membership -/

lemma mem_get_cast_iff (st : DBState) (p x y : Nat) :
    (x, y) ∈ get_cast_for_production st p ↔
      ((x, y, p) ∈ st.actor_role ∧ (∃ a ∈ st.actors, a.1 = x) ∧
        (∃ r ∈ st.roles, r.1 = y)) := by
  simp only [get_cast_for_production, List.mem_flatMap, List.mem_filter, List.mem_map,
    beq_iff_eq, Prod.mk.injEq]
  constructor
  · rintro ⟨⟨a1, a2, a3⟩, ⟨har, hp⟩, a, ⟨ha, hax⟩, r, ⟨hrr, hry⟩, hx, hy⟩
    dsimp only at hp hax hry
    subst hp hx hy hax hry
    exact ⟨har, ⟨a, ha, rfl⟩, ⟨r, hrr, rfl⟩⟩
  · rintro ⟨har, ⟨a, ha, hax⟩, r, hrr, hry⟩
    exact ⟨(x, y, p), ⟨har, rfl⟩, a, ⟨ha, hax⟩, r, ⟨hrr, hry⟩, hax, hry⟩

lemma mem_pair_join_iff (links : List (Nat × Nat)) (members : List (Nat × String))
    (owner a : Nat) :
    (∃ row ∈ (links.filter (fun ar => ar.2 == owner)).flatMap
        (fun ar => members.filter (fun m => m.1 == ar.1)), row.1 = a) ↔
      ((a, owner) ∈ links ∧ ∃ x ∈ members, x.1 = a) := by
  simp only [List.mem_flatMap, List.mem_filter, beq_iff_eq]
  constructor
  · rintro ⟨row, ⟨⟨l1, l2⟩, ⟨hl, hlo⟩, hrow, hra⟩, hral⟩
    dsimp only at hlo hra
    subst hlo hral hra
    exact ⟨hl, row, hrow, rfl⟩
  · rintro ⟨hl, x, hx, hxa⟩
    exact ⟨x, ⟨(a, owner), ⟨hl, rfl⟩, hx, hxa⟩, hxa⟩

/-! ### Claims about the Relationship Replacers -/

/-- C1: replacing a production's cast, a rehearsal's attendance or a
play's authorship and then immediately reading the associations back
returns exactly the new set (order-independent set equality), also over a
non-empty disjoint previous set.  The hypotheses are the store-side
well-formedness the operation needs to commit: the new set has no
duplicate rows and its ids satisfy the foreign keys. -/
theorem replace_then_read_returns_new_set (st : DBState)
    (production_id rehearsal_id play_id : Nat)
    (cast_data : List (Nat × Nat)) (actor_ids author_ids : List Nat)
    (h1 : cast_data.Nodup)
    (h2 : ∀ c ∈ cast_data, (∃ a ∈ st.actors, a.1 = c.1) ∧ (∃ r ∈ st.roles, r.1 = c.2))
    (h3 : production_id ∈ st.productions)
    (h4 : actor_ids.Nodup)
    (h5 : ∀ a ∈ actor_ids, ∃ x ∈ st.actors, x.1 = a)
    (h6 : rehearsal_id ∈ st.rehearsals)
    (h7 : author_ids.Nodup)
    (h8 : ∀ a ∈ author_ids, ∃ x ∈ st.authors, x.1 = a)
    (h9 : play_id ∈ st.plays) :
    ((set_production_cast st production_id cast_data).1 = .ok ()
      ∧ ∀ pr : Nat × Nat,
          pr ∈ get_cast_for_production (set_production_cast st production_id cast_data).2
            production_id ↔ pr ∈ cast_data)
    ∧ ((set_rehearsal_actors st rehearsal_id actor_ids).1 = .ok ()
      ∧ ∀ a : Nat,
          (∃ row ∈ get_actors_for_rehearsal
              (set_rehearsal_actors st rehearsal_id actor_ids).2 rehearsal_id,
            row.1 = a) ↔ a ∈ actor_ids)
    ∧ ((set_play_authors st play_id author_ids).1 = .ok ()
      ∧ ∀ a : Nat,
          (∃ row ∈ get_authors_for_play (set_play_authors st play_id author_ids).2 play_id,
            row.1 = a) ↔ a ∈ author_ids) := by
  rw [set_production_cast_ok st production_id cast_data h1 h2 h3,
    set_rehearsal_actors_ok st rehearsal_id actor_ids h4 h5 h6,
    set_play_authors_ok st play_id author_ids h7 h8 h9]
  refine ⟨⟨rfl, ?_⟩, ⟨rfl, ?_⟩, ⟨rfl, ?_⟩⟩
  · rintro ⟨x, y⟩
    rw [mem_get_cast_iff]
    dsimp only
    constructor
    · rintro ⟨hmem, -, -⟩
      rcases List.mem_append.mp hmem with hold | hnew
      · have := (List.mem_filter.mp hold).2
        simp [bne_iff_ne] at this
      · obtain ⟨c, hc, hceq⟩ := List.mem_map.mp hnew
        have hcxy : c = (x, y) := by
          obtain ⟨c1, c2⟩ := c
          simpa using And.intro (congrArg (fun t => t.1) hceq)
            (congrArg (fun t => t.2.1) hceq)
        subst hcxy
        exact hc
    · intro h
      exact ⟨List.mem_append.mpr (Or.inr (List.mem_map.mpr ⟨(x, y), h, rfl⟩)),
        (h2 (x, y) h).1, (h2 (x, y) h).2⟩
  · intro a
    simp only [get_actors_for_rehearsal]
    rw [mem_pair_join_iff]
    constructor
    · rintro ⟨hmem, -⟩
      rcases List.mem_append.mp hmem with hold | hnew
      · have := (List.mem_filter.mp hold).2
        simp [bne_iff_ne] at this
      · obtain ⟨a', ha', heq⟩ := List.mem_map.mp hnew
        have haa : a' = a := by simpa using congrArg (fun t => t.1) heq
        subst haa
        exact ha'
    · intro h
      exact ⟨List.mem_append.mpr (Or.inr (List.mem_map.mpr ⟨a, h, rfl⟩)), h5 a h⟩
  · intro a
    simp only [get_authors_for_play]
    rw [mem_pair_join_iff]
    constructor
    · rintro ⟨hmem, -⟩
      rcases List.mem_append.mp hmem with hold | hnew
      · have := (List.mem_filter.mp hold).2
        simp [bne_iff_ne] at this
      · obtain ⟨a', ha', heq⟩ := List.mem_map.mp hnew
        have haa : a' = a := by simpa using congrArg (fun t => t.1) heq
        subst haa
        exact ha'
    · intro h
      exact ⟨List.mem_append.mpr (Or.inr (List.mem_map.mpr ⟨a, h, rfl⟩)), h8 a h⟩

/-- A small concrete store state: the previous cast, attendance and
authorship sets are non-empty and disjoint from the new sets used in the
witnesses. -/
def sampleState : DBState :=
  { actors := [(1, "Alice Ainsworth"), (2, "Bob Barton"), (3, "Carol Cody")],
    roles := [(10, "Hamlet"), (11, "Ophelia"), (12, "Laertes")],
    authors := [(5, "Shakespeare"), (6, "Marlowe")],
    productions := [100],
    rehearsals := [200],
    plays := [300],
    actor_role := [(3, 12, 100)],
    actor_rehearsal := [(3, 200)],
    author_play := [(6, 300)] }

theorem replace_then_read_returns_new_set_witness :
    ((set_production_cast sampleState 100 [(1, 10), (2, 11)]).1 = .ok ()
      ∧ ∀ pr : Nat × Nat,
          pr ∈ get_cast_for_production
            (set_production_cast sampleState 100 [(1, 10), (2, 11)]).2 100 ↔
            pr ∈ [(1, 10), (2, 11)])
    ∧ ((set_rehearsal_actors sampleState 200 [1, 2]).1 = .ok ()
      ∧ ∀ a : Nat,
          (∃ row ∈ get_actors_for_rehearsal
              (set_rehearsal_actors sampleState 200 [1, 2]).2 200, row.1 = a) ↔
            a ∈ [1, 2])
    ∧ ((set_play_authors sampleState 300 [5]).1 = .ok ()
      ∧ ∀ a : Nat,
          (∃ row ∈ get_authors_for_play (set_play_authors sampleState 300 [5]).2 300,
            row.1 = a) ↔ a ∈ [5]) :=
  replace_then_read_returns_new_set sampleState 100 200 300 [(1, 10), (2, 11)] [1, 2] [5]
    (by decide) (by decide) (by decide) (by decide) (by decide) (by decide)
    (by decide) (by decide) (by decide)

/-- C2: when a Relationship Replacer transaction fails (the hypotheses
say the call surfaced an error), the visible state is the pre-call state
and a subsequent read returns the pre-call association set unchanged;
moreover, for every input the visible state is either the untouched
pre-call state or the fully replaced set — never a partial mix. -/
theorem replace_failure_rolls_back (st : DBState) (production_id rehearsal_id : Nat)
    (cast_data : List (Nat × Nat)) (actor_ids : List Nat) (e e2 : String)
    (he : (set_production_cast st production_id cast_data).1 = .error e)
    (he2 : (set_rehearsal_actors st rehearsal_id actor_ids).1 = .error e2) :
    ((set_production_cast st production_id cast_data).2 = st
      ∧ get_cast_for_production (set_production_cast st production_id cast_data).2
          production_id = get_cast_for_production st production_id)
    ∧ ((set_rehearsal_actors st rehearsal_id actor_ids).2 = st
      ∧ get_actors_for_rehearsal (set_rehearsal_actors st rehearsal_id actor_ids).2
          rehearsal_id = get_actors_for_rehearsal st rehearsal_id)
    ∧ (∀ cd : List (Nat × Nat),
        (set_production_cast st production_id cd).2 = st ∨
          (set_production_cast st production_id cd).2.actor_role =
            st.actor_role.filter (fun ar => ar.2.2 != production_id) ++
              cd.map (fun item => (item.1, item.2, production_id)))
    ∧ (∀ ids : List Nat,
        (set_rehearsal_actors st rehearsal_id ids).2 = st ∨
          (set_rehearsal_actors st rehearsal_id ids).2.actor_rehearsal =
            st.actor_rehearsal.filter (fun ar => ar.2 != rehearsal_id) ++
              ids.map (fun a => (a, rehearsal_id))) := by
  have hcast : (set_production_cast st production_id cast_data).2 = st := by
    cases hres : insertCastRows (fun a => st.actors.any (fun x => x.1 == a))
        (fun r => st.roles.any (fun x => x.1 == r))
        (fun p => st.productions.contains p)
        (st.actor_role.filter (fun ar => ar.2.2 != production_id))
        (cast_data.map (fun item => (item.1, item.2, production_id))) with
    | ok tbl =>
      simp only [set_production_cast] at he
      rw [hres] at he
      simp at he
    | error err =>
      simp only [set_production_cast]
      rw [hres]
  have hreh : (set_rehearsal_actors st rehearsal_id actor_ids).2 = st := by
    cases hres : insertPairRows (fun a => st.actors.any (fun x => x.1 == a))
        (fun r => st.rehearsals.contains r)
        (st.actor_rehearsal.filter (fun ar => ar.2 != rehearsal_id))
        (actor_ids.map (fun a => (a, rehearsal_id))) with
    | ok tbl =>
      simp only [set_rehearsal_actors] at he2
      rw [hres] at he2
      simp at he2
    | error err =>
      simp only [set_rehearsal_actors]
      rw [hres]
  refine ⟨⟨hcast, by rw [hcast]⟩, ⟨hreh, by rw [hreh]⟩, ?_, ?_⟩
  · intro cd
    cases hres : insertCastRows (fun a => st.actors.any (fun x => x.1 == a))
        (fun r => st.roles.any (fun x => x.1 == r))
        (fun p => st.productions.contains p)
        (st.actor_role.filter (fun ar => ar.2.2 != production_id))
        (cd.map (fun item => (item.1, item.2, production_id))) with
    | ok tbl =>
      right
      have hshape := insertCastRows_ok_shape _ _ _ _ _ _ hres
      simp only [set_production_cast]
      rw [hres]
      exact hshape
    | error err =>
      left
      simp only [set_production_cast]
      rw [hres]
  · intro ids
    cases hres : insertPairRows (fun a => st.actors.any (fun x => x.1 == a))
        (fun r => st.rehearsals.contains r)
        (st.actor_rehearsal.filter (fun ar => ar.2 != rehearsal_id))
        (ids.map (fun a => (a, rehearsal_id))) with
    | ok tbl =>
      right
      have hshape := insertPairRows_ok_shape _ _ _ _ _ hres
      simp only [set_rehearsal_actors]
      rw [hres]
      exact hshape
    | error err =>
      left
      simp only [set_rehearsal_actors]
      rw [hres]

theorem replace_failure_rolls_back_witness :
    ((set_production_cast sampleState 100 [(1, 10), (1, 10)]).2 = sampleState
      ∧ get_cast_for_production (set_production_cast sampleState 100 [(1, 10), (1, 10)]).2
          100 = get_cast_for_production sampleState 100)
    ∧ ((set_rehearsal_actors sampleState 200 [1, 1]).2 = sampleState
      ∧ get_actors_for_rehearsal (set_rehearsal_actors sampleState 200 [1, 1]).2
          200 = get_actors_for_rehearsal sampleState 200)
    ∧ (∀ cd : List (Nat × Nat),
        (set_production_cast sampleState 100 cd).2 = sampleState ∨
          (set_production_cast sampleState 100 cd).2.actor_role =
            sampleState.actor_role.filter (fun ar => ar.2.2 != 100) ++
              cd.map (fun item => (item.1, item.2, 100)))
    ∧ (∀ ids : List Nat,
        (set_rehearsal_actors sampleState 200 ids).2 = sampleState ∨
          (set_rehearsal_actors sampleState 200 ids).2.actor_rehearsal =
            sampleState.actor_rehearsal.filter (fun ar => ar.2 != 200) ++
              ids.map (fun a => (a, 200))) :=
  replace_failure_rolls_back sampleState 100 200 [(1, 10), (1, 10)] [1, 1]
    "duplicate key" "duplicate key" (by rfl) (by rfl)
